import Mathlib

/-!
Verification of the Flux VAD / segmentation engine of the voxd repository
(src/voxt/flux/flux_main.py) against its natural-language specification.

Modelling conventions (shallow embedding):
- Audio samples and dB levels are rationals.  The source computes a dBFS
  level of a frame as 20*log10(rms(frame) + eps); this map is transcendental,
  so a Frame carries its precomputed dBFS level in the field db, and its
  precomputed FFT magnitude spectra (plain and Hann-windowed) in the fields
  spec and wspec.  All control flow of the source depends on frames only
  through these derived values, so no information relevant to the claims is
  lost.  The samples field keeps the raw PCM content (and gives frames
  identity).
- numpy elementwise EMA updates of spectra become List.zipWith; the FFT and
  inverse FFT of the noise suppressor are kept as explicit function
  parameters (rf for the magnitude/phase of np.fft.rfft, irf for
  np.fft.irfft of clean_mag * exp(i*phase) with n = N), since they are
  transcendental; the spectral-subtraction arithmetic itself
  (np.maximum(mag - oversub * noise_mag, floor)) is embedded exactly.
- Integer floor division of Python is Nat division; float rounding of
  Python is not modelled.
- The consumer loop FluxRunner._consume_loop is embedded as a step function
  on the runner state over a finite list of frames; segments handed to
  _transcribe_async are collected in the field outputs (as frame lists,
  before np.concatenate).  Monitor/GUI bookkeeping and debug printing do
  not influence the segmentation state and are omitted.
-/

/-- One fixed-length audio frame.  samples is the raw PCM content; db is the
precomputed dBFS level 20*log10(rms+eps) of the frame; spec is the
precomputed magnitude spectrum abs(rfft(samples)); wspec is the precomputed
magnitude spectrum abs(rfft(samples * hanning(N))) used by the noise
suppressor. -/
structure Frame where
  samples : List ℚ
  db : ℚ
  spec : List ℚ
  wspec : List ℚ
deriving DecidableEq, Repr

/-- Elementwise exponential moving average of two spectra:
(1-beta) * old + beta * new, as in the numpy expression
(1.0 - ema) * noise_mag + ema * mag. -/
def emaList (beta : ℚ) (old new : List ℚ) : List ℚ :=
  List.zipWith (fun a b => (1 - beta) * a + beta * b) old new

/-- State of FluxVAD (flux_main.py lines 110-131).  The fields mirror the
attributes set in FluxVAD.__init__; noise_spec and noise_spec_ema model
_noise_spec and _noise_spec_ema, calib_target and calib_done model
_calib_frames_target and _calib_frames_done, speaking models _speaking. -/
structure FluxVAD where
  fs : ℕ
  frame_ms : ℕ
  N : ℕ
  start_margin_db : ℚ
  keep_margin_db : ℚ
  abs_start_db : ℚ
  abs_keep_db : ℚ
  noise_db : ℚ
  noise_ema : ℚ
  speaking : Bool
  calibrating : Bool
  calib_target : ℕ
  calib_done : ℕ
  noise_spec : Option (List ℚ)
  noise_spec_ema : ℚ
deriving DecidableEq, Repr

/-- FluxVAD.begin_calibration (lines 138-143): enter calibration mode with a
frame target of max(1, (duration_sec * 1000) // frame_ms); optionally reset
the spectral EMA rate. -/
def FluxVAD.begin_calibration (v : FluxVAD) (duration_sec : ℚ)
    (spec_ema : Option ℚ) : FluxVAD :=
  { v with
    calibrating := true
    calib_done := 0
    calib_target := max 1 (Int.toNat ⌊duration_sec * 1000 / (v.frame_ms : ℚ)⌋)
    noise_spec_ema := spec_ema.getD v.noise_spec_ema }

/-- FluxVAD.feed_calibration (lines 145-163): seed the scalar noise floor from
the first calibration frame, EMA afterwards; EMA the spectral baseline;
count the frame and leave calibration once the target is reached. -/
def FluxVAD.feed_calibration (v : FluxVAD) (f : Frame) : FluxVAD :=
  let lvl := f.db
  let noise' := if v.calib_done = 0 then lvl
    else (1 - v.noise_ema) * v.noise_db + v.noise_ema * lvl
  let spec' := match v.noise_spec with
    | none => f.spec
    | some s => emaList v.noise_spec_ema s f.spec
  let done' := v.calib_done + 1
  { v with
    noise_db := noise'
    noise_spec := some spec'
    calib_done := done'
    calibrating := if v.calib_target ≤ done' then false else v.calibrating }

/-- FluxVAD.get_thresholds_db (lines 165-168): dynamic start and keep
thresholds, clamped from below by the absolute bounds. -/
def FluxVAD.get_thresholds (v : FluxVAD) : ℚ × ℚ :=
  (max (v.noise_db + v.start_margin_db) v.abs_start_db,
   max (v.noise_db + v.keep_margin_db) v.abs_keep_db)

/-- FluxVAD.is_speech (lines 170-197): during calibration feed the
accumulator and report not-speaking; otherwise adapt the noise floor and
spectral baseline while not speaking, then apply the start/keep hysteresis
rule.  Returns the decision together with the updated state. -/
def FluxVAD.is_speech (v : FluxVAD) (f : Frame) : Bool × FluxVAD :=
  let lvl := f.db
  if v.calibrating then
    let v' := v.feed_calibration f
    (false, { v' with speaking := false })
  else
    let v1 :=
      if v.speaking then v
      else
        { v with
          noise_db := (1 - v.noise_ema) * v.noise_db + v.noise_ema * lvl
          noise_spec := some (match v.noise_spec with
            | none => f.spec
            | some s => emaList v.noise_spec_ema s f.spec) }
    let thr := v1.get_thresholds
    let sp := if v1.speaking then decide (thr.2 ≤ lvl) else decide (thr.1 ≤ lvl)
    (sp, { v1 with speaking := sp })

/-- Fold FluxVAD.is_speech over a list of frames, keeping the state. -/
def FluxVAD.consume (v : FluxVAD) (gs : List Frame) : FluxVAD :=
  gs.foldl (fun s g => (s.is_speech g).2) v

/-- State of NoiseSuppressor (lines 48-61).  win holds the Hann window
values (np.hanning(N), transcendental, hence carried as data); floor holds
the precomputed linear floor 10^(floor_db/20); noise_mag is the learned
noise magnitude spectrum, None before any calibration. -/
structure NoiseSuppressor where
  fs : ℕ
  N : ℕ
  hop : ℕ
  win : List ℚ
  floor : ℚ
  oversub : ℚ
  ema : ℚ
  noise_mag : Option (List ℚ)
deriving DecidableEq, Repr

/-- NoiseSuppressor.calibrate_with (lines 63-71): EMA the windowed magnitude
spectrum of the frame into the noise baseline (seed it on first use). -/
def NoiseSuppressor.calibrate_with (ns : NoiseSuppressor) (f : Frame) :
    NoiseSuppressor :=
  { ns with noise_mag := some (match ns.noise_mag with
      | none => f.wspec
      | some s => emaList ns.ema s f.wspec) }

/-- NoiseSuppressor.update_noise (lines 73-74): alias of calibrate_with. -/
def NoiseSuppressor.update_noise (ns : NoiseSuppressor) (f : Frame) :
    NoiseSuppressor :=
  ns.calibrate_with f

/-- Add the values of f into y starting at offset s, elementwise, leaving
the rest of y unchanged: models the numpy slice update
y[start:start+len(f)] += f used in the overlap-add loop. -/
def addInto (y : List ℚ) (s : ℕ) (f : List ℚ) : List ℚ :=
  y.mapIdx (fun i v => if s ≤ i ∧ i < s + f.length then v + f.getD (i - s) 0 else v)

/-- Overlap-add: accumulate each frame at offset (frame index) * hop into the
accumulator y0, as in the enumerate loop of NoiseSuppressor.enhance. -/
def olaAdd (hop : ℕ) (frames : List (List ℚ)) (y0 : List ℚ) : List ℚ :=
  frames.enum.foldl (fun acc p => addInto acc (p.1 * hop) p.2) y0

/-- NoiseSuppressor.enhance (lines 76-107).  rf abstracts the pair
(np.abs (np.fft.rfft seg), np.angle (np.fft.rfft seg)); irf abstracts
np.fft.irfft(clean_mag * exp(i*phase), n = N).  Everything else - the
no-baseline early return, the short-input early return, the framing of the
input at hop intervals, the Hann windowing, the spectral subtraction
np.maximum(mag - oversub * noise_mag, floor), the overlap-add with
window-square normalization (zeros of the weight replaced by 1), and the
final tail padding or truncation to the input length - is embedded
directly. -/
def NoiseSuppressor.enhance (rf : List ℚ → List ℚ × List ℚ)
    (irf : List ℚ → List ℚ → ℕ → List ℚ)
    (ns : NoiseSuppressor) (xs : List ℚ) : List ℚ :=
  match ns.noise_mag with
  | none => xs
  | some nm =>
    if xs.length < ns.N then xs
    else
      let k := (xs.length - ns.N) / ns.hop + 1
      let frames := (List.range k).map (fun i =>
        let seg := List.zipWith (· * ·) ((xs.drop (i * ns.hop)).take ns.N) ns.win
        let mp := rf seg
        let clean := List.zipWith (fun m nv => max (m - ns.oversub * nv) ns.floor) mp.1 nm
        irf clean mp.2 ns.N)
      let L := ns.hop * (k - 1) + ns.N
      let y := olaAdd ns.hop frames (List.replicate L 0)
      let w2 := List.zipWith (· * ·) ns.win ns.win
      let wsum := olaAdd ns.hop (frames.map (fun _ => w2)) (List.replicate L 0)
      let wsum1 := wsum.map (fun w => if w = 0 then 1 else w)
      let yn := List.zipWith (· / ·) y wsum1
      if yn.length < xs.length then yn ++ List.replicate (xs.length - yn.length) 0
      else yn.take xs.length

/-- Push a frame into the pre-roll ring buffer of capacity m
(collections.deque with maxlen = m: the oldest entries are evicted, and a
deque of maxlen 0 stays empty). -/
def pushRoll (m : ℕ) (buf : List Frame) (f : Frame) : List Frame :=
  (buf ++ [f]).drop (buf.length + 1 - m)

/-- State of FluxRunner (lines 215-289) restricted to the fields read or
written by the consumer loop.  outputs collects, oldest first, the segments
handed to _transcribe_async on finalization (as frame lists, before
np.concatenate); calibrating models _calibrating and paused models
_paused. -/
structure FluxRunner where
  fs : ℕ
  frame_ms : ℕ
  N : ℕ
  min_silence_frames : ℕ
  min_speech_frames : ℕ
  pre_roll_frames : ℕ
  post_roll_frames : ℕ
  min_segment_ms : ℕ
  cooldown_ms : ℕ
  min_rms_dbfs : ℚ
  vad : FluxVAD
  ns : NoiseSuppressor
  pre_roll : List Frame
  seg_frames : List Frame
  in_speech : Bool
  speech_run : ℕ
  silence_run : ℕ
  cooldown_run : ℕ
  calibrating : Bool
  paused : Bool
  outputs : List (List Frame)
deriving DecidableEq, Repr

/-- Segmentation part of one iteration of FluxRunner._consume_loop
(lines 343-382), given the boolean speech decision for the frame.  On the
speaking side: bump speech_run, clear silence_run, decrement a positive
cooldown_run, and either open a segment seeded with the pre-roll buffer
plus the current frame (once speech_run reaches min_speech_frames) or
append to the open segment.  On the silent side: bump silence_run, clear
speech_run; while a segment is open append the frame as hangover and, once
silence_run reaches min_silence_frames + post_roll_frames, finalize by
dropping min(silence_run, len(seg_frames)) trailing frames, emitting the
segment, and arming the cooldown counter; while idle refresh the pre-roll
ring buffer. -/
def FluxRunner.segStep (r : FluxRunner) (f : Frame) (speaking : Bool) :
    FluxRunner :=
  if speaking then
    let r1 := { r with
      speech_run := r.speech_run + 1
      silence_run := 0
      cooldown_run := if 0 < r.cooldown_run then r.cooldown_run - 1 else r.cooldown_run }
    if r1.in_speech = false then
      if r1.min_speech_frames ≤ r1.speech_run then
        { r1 with in_speech := true, seg_frames := r1.pre_roll ++ [f] }
      else r1
    else
      { r1 with seg_frames := r1.seg_frames ++ [f] }
  else
    let r1 := { r with silence_run := r.silence_run + 1, speech_run := 0 }
    if r1.in_speech = true then
      let buf := r1.seg_frames ++ [f]
      if r1.min_silence_frames + r1.post_roll_frames ≤ r1.silence_run then
        let dropn := min r1.silence_run buf.length
        let seg := if 0 < dropn then buf.take (buf.length - dropn) else buf
        { r1 with
          seg_frames := []
          in_speech := false
          silence_run := 0
          cooldown_run := max 1 (r1.cooldown_ms / r1.frame_ms)
          outputs := r1.outputs ++ [seg] }
      else
        { r1 with seg_frames := buf }
    else
      { r1 with pre_roll := pushRoll r1.pre_roll_frames r1.pre_roll f }

/-- One iteration of FluxRunner._consume_loop (lines 300-394) for one
dequeued frame.  While calibrating, feed both baselines, propagate the end
of calibration, and run the segmentation logic with speaking = False (the
source falls through to it).  While paused, only refresh the pre-roll
buffer.  Otherwise update the spectral noise baseline, ask the VAD, and run
the segmentation logic. -/
def FluxRunner.step (r : FluxRunner) (f : Frame) : FluxRunner :=
  if r.calibrating then
    let v' := r.vad.feed_calibration f
    FluxRunner.segStep
      { r with
        vad := v'
        ns := r.ns.calibrate_with f
        calibrating := if v'.calibrating = false then false else r.calibrating }
      f false
  else if r.paused then
    { r with pre_roll := pushRoll r.pre_roll_frames r.pre_roll f }
  else
    FluxRunner.segStep
      { r with ns := r.ns.update_noise f, vad := (r.vad.is_speech f).2 }
      f
      (r.vad.is_speech f).1

/-- Run the consumer loop over a finite list of frames in arrival order. -/
def FluxRunner.consume (r : FluxRunner) (gs : List Frame) : FluxRunner :=
  gs.foldl FluxRunner.step r

/-- Build a FluxRunner from millisecond-level configuration, mirroring the
derivations of FluxRunner.__init__ (lines 224-239 and 266-289): frame
counts are floor divisions by frame_ms with the same clamps as the source,
buffers start empty, and calibration is pending iff calib_sec is positive. -/
def FluxRunner.ofConfig (fs frame_ms min_silence_ms min_speech_ms pre_roll_ms
    post_roll_ms min_segment_ms cooldown_ms : ℕ) (min_rms_dbfs : ℚ)
    (calib_sec : ℚ) (vad : FluxVAD) (ns : NoiseSuppressor) : FluxRunner :=
  { fs := fs
    frame_ms := frame_ms
    N := fs * frame_ms / 1000
    min_silence_frames := max 1 (min_silence_ms / frame_ms)
    min_speech_frames := max 1 (min_speech_ms / frame_ms)
    pre_roll_frames := max 0 (pre_roll_ms / frame_ms)
    post_roll_frames := max 0 (post_roll_ms / frame_ms)
    min_segment_ms := min_segment_ms
    cooldown_ms := cooldown_ms
    min_rms_dbfs := min_rms_dbfs
    vad := vad
    ns := ns
    pre_roll := []
    seg_frames := []
    in_speech := false
    speech_run := 0
    silence_run := 0
    cooldown_run := 0
    calibrating := decide (0 < calib_sec)
    paused := false
    outputs := [] }

/-- Duration in whole milliseconds of a segment of size samples at sample
rate fs, as computed in FluxRunner._do_transcribe (line 410):
int(1000 * audio.size / max(fs, 1)). -/
def segMsOf (fs size : ℕ) : ℕ :=
  1000 * size / max fs 1

/-- FluxRunner._transcribe_async (lines 396-400): segments of fewer than
N * 3 samples are skipped before any worker is spawned, with no output;
otherwise a worker is spawned.  First component: whether a worker thread is
spawned; second: the log lines produced by this call (always none). -/
def transcribeAsyncRun (N size : ℕ) : Bool × List String :=
  if size < N * 3 then (false, []) else (true, [])

/-- Finalize-time filters of FluxRunner._do_transcribe (lines 409-420),
given the segment size and its precomputed overall dBFS level seg_db
(20*log10(rms+eps), transcendental in the source).  First component:
whether the segment survives both filters and reaches the transcriber;
second: the debug log lines produced (only when debug_vad is set). -/
def doTranscribeFilters (debug_vad : Bool) (fs min_segment_ms : ℕ)
    (min_rms_dbfs : ℚ) (size : ℕ) (seg_db : ℚ) : Bool × List String :=
  if segMsOf fs size < min_segment_ms then
    (false, if debug_vad then ["[seg] drop short"] else [])
  else if seg_db < min_rms_dbfs then
    (false, if debug_vad then ["[seg] drop low-level"] else [])
  else (true, [])

/-- Dispatch decision for one finalized segment: the _transcribe_async gate
followed, in the spawned worker, by the _do_transcribe filters.  First
component: whether the segment reaches the transcription collaborator;
second: the accumulated log lines. -/
def segmentPipeline (debug_vad : Bool) (N fs min_segment_ms : ℕ)
    (min_rms_dbfs : ℚ) (size : ℕ) (seg_db : ℚ) : Bool × List String :=
  let a := transcribeAsyncRun N size
  if a.1 then
    let d := doTranscribeFilters debug_vad fs min_segment_ms min_rms_dbfs size seg_db
    (d.1, a.2 ++ d.2)
  else a

/-- Silent test frame at -70 dBFS, tagged i for identity. -/
def silF (i : ℕ) : Frame := ⟨[(i : ℚ)], -70, [], []⟩

/-- Loud test frame at -20 dBFS, tagged i for identity. -/
def loudF (i : ℕ) : Frame := ⟨[(i : ℚ)], -20, [], []⟩

/-- FluxVAD state as built by FluxVAD.__init__ with the documented defaults
at 16 kHz and 30 ms frames: margins 6 and 3 dB, absolute bounds -33 and
-37 dBFS,
initial noise floor -60 dBFS, noise EMA 0.05, spectral EMA 0.02. -/
def defVAD : FluxVAD :=
  { fs := 16000, frame_ms := 30, N := 480
    start_margin_db := 6, keep_margin_db := 3
    abs_start_db := -33, abs_keep_db := -37
    noise_db := -60, noise_ema := 1/20
    speaking := false, calibrating := false
    calib_target := 0, calib_done := 0
    noise_spec := none, noise_spec_ema := 1/50 }

/-- NoiseSuppressor state with no learned baseline (noise_mag is None, as
after __init__).  The Hann window values are transcendental and irrelevant
to the claims settled here, so the win field is left empty. -/
def emptyNS : NoiseSuppressor :=
  { fs := 16000, N := 480, hop := 240, win := [], floor := 1/10000
    oversub := 1, ema := 1/50, noise_mag := none }

/-- Runner for the section-8 scenario: 16 kHz, frame_ms = 30,
min_silence_ms = 500, min_speech_ms = 200, pre_roll_ms = post_roll_ms = 150,
min_segment_ms = 600, cooldown_ms = 250, min_rms_dbfs = -45, no
calibration. -/
def C1runner : FluxRunner :=
  FluxRunner.ofConfig 16000 30 500 200 150 150 600 250 (-45) 0 defVAD emptyNS

/-- Frames of the section-8 scenario: 5 silent frames at -70 dBFS, then 10
loud frames at -20 dBFS, then 25 silent frames. -/
def C1frames : List Frame :=
  ((List.range 5).map silF) ++ ((List.range' 5 10).map loudF) ++
    ((List.range' 15 25).map silF)

set_option maxRecDepth 100000 in
set_option maxHeartbeats 1000000 in
/-- Claim C1: the claim states that finalization trims the trailing silent
hangover back to exactly post_roll_frames (here 5) of silence, so that the
section-8 scenario yields a segment of about 20 frames (5 pre-roll +
10 speech + 5 post-roll).  The code instead drops min(silence_run,
len(seg_frames)) trailing frames, i.e. the entire silent hangover including
the post-roll, and it also never buffers the 5 speech frames that precede
the detection threshold crossing: the finalized segment of the scenario is
exactly the 5 silent pre-roll frames followed by speech frames 6..10, that
is 10 frames, ending at the last loud frame with zero trailing silence. -/
theorem C1_post_roll_dropped :
    (C1runner.consume C1frames).outputs =
      [[silF 0, silF 1, silF 2, silF 3, silF 4,
        loudF 10, loudF 11, loudF 12, loudF 13, loudF 14]] ∧
    (C1runner.consume C1frames).outputs.map List.length = [10] := by
  with_unfolding_all decide

/-- Runner for the C2 counterexample: min_speech_frames = 2,
pre_roll_frames = 1, min_silence_frames = 1, post_roll_frames = 0. -/
def C2runner : FluxRunner :=
  FluxRunner.ofConfig 16000 30 30 60 30 0 600 250 (-45) 0 defVAD emptyNS

/-- Frames for the C2 counterexample: one silent frame, two loud frames
(the second is the trigger frame N), one silent frame to finalize. -/
def C2frames : List Frame := [silF 0, loudF 1, loudF 2, silF 3]

/-- Claim C2: the claim states that the finalized segment contains every
frame in the range from N - pre_roll_frames to N, where N is the frame at
which the transition to Accumulating fires.  In the code the pre-roll ring
buffer is only fed in the silent-idle branch, so the speaking frames
between speech onset and the threshold crossing are neither in the pre-roll
buffer nor in the segment: with min_speech_frames = 2 and
pre_roll_frames = 1, the run silent, loud, loud, silent finalizes the
segment [frame 0, frame 2], and frame 1, which lies in the claimed range
between N - 1 and N with N = 2, is missing. -/
theorem C2_onset_frames_lost :
    (C2runner.consume C2frames).outputs = [[silF 0, loudF 2]] ∧
    loudF 1 ∉ [silF 0, loudF 2] := by
  with_unfolding_all decide

/-- Runner for the C3 counterexample: min_speech_frames = 2,
min_silence_frames = 1, post_roll_frames = 0, cooldown_ms = 250 at
frame_ms = 30, so the cooldown counter is armed to max(1, 250 div 30) = 8
frames at finalization. -/
def C3runner : FluxRunner :=
  FluxRunner.ofConfig 16000 30 30 60 30 0 600 250 (-45) 0 defVAD emptyNS

/-- Frames for the C3 counterexample: two loud frames open a segment, one
silent frame finalizes it (arming cooldown_run = 8), and two further loud
frames immediately re-trigger speech. -/
def C3frames : List Frame := [loudF 0, loudF 1, silF 2, loudF 3, loudF 4]

/-- Claim C3: the claim states that within the cooldown window speaking
frames do not re-trigger the transition from Idle to Accumulating.  In the
code cooldown_run is decremented on speaking frames but never consulted by
the transition condition: after a segment finalizes (cooldown_run = 8), two
speaking frames suffice to set in_speech again, at which point
cooldown_run = 6 is still positive, so a new segment begins inside the
cooldown window. -/
theorem C3_cooldown_not_enforced :
    (C3runner.consume C3frames).in_speech = true ∧
    (C3runner.consume C3frames).cooldown_run = 6 ∧
    (C3runner.consume C3frames).outputs.length = 1 := by
  with_unfolding_all decide

/-- Claim C4: with the default margins and absolute bounds
(start_margin_db = 6 ≥ keep_margin_db = 3, abs_start_db = -33 ≥
abs_keep_db = -37) the keep threshold never exceeds the start threshold,
and a frame whose level lies strictly between the two thresholds computed
by is_speech keeps an already-speaking VAD speaking but does not switch a
non-speaking VAD to speaking. -/
theorem C4_hysteresis (v : FluxVAD) (f : Frame)
    (h1 : v.start_margin_db = 6) (h2 : v.keep_margin_db = 3)
    (h3 : v.abs_start_db = -33) (h4 : v.abs_keep_db = -37)
    (h5 : v.calibrating = false)
    (hlo : (v.is_speech f).2.get_thresholds.2 < f.db)
    (hhi : f.db < (v.is_speech f).2.get_thresholds.1) :
    v.get_thresholds.2 ≤ v.get_thresholds.1 ∧
    (v.speaking = true → (v.is_speech f).1 = true) ∧
    (v.speaking = false → (v.is_speech f).1 = false) := by
  refine ⟨?_, ?_, ?_⟩
  · simp only [FluxVAD.get_thresholds, h1, h2, h3, h4]
    exact max_le_max (by linarith) (by norm_num)
  · intro hsp
    simp only [FluxVAD.is_speech, FluxVAD.get_thresholds, h5, hsp,
      Bool.false_eq_true, if_false, if_true] at hlo hhi ⊢
    simpa using le_of_lt hlo
  · intro hsp
    simp only [FluxVAD.is_speech, FluxVAD.get_thresholds, h5, hsp,
      Bool.false_eq_true, if_false, if_true] at hlo hhi ⊢
    simpa using not_le_of_lt hhi

/-- VAD state for the C4 witness: the default VAD, already speaking. -/
def C4v : FluxVAD := { defVAD with speaking := true }

/-- Frame for the C4 witness: level -35 dBFS, strictly between the keep
threshold -37 and the start threshold -33 at a noise floor of -60. -/
def C4f : Frame := ⟨[], -35, [], []⟩

/-- Witness for C4_hysteresis at a concrete speaking VAD and a frame whose
level lies strictly between the two thresholds. -/
theorem C4_hysteresis_witness :
    C4v.get_thresholds.2 ≤ C4v.get_thresholds.1 ∧
    (C4v.speaking = true → (C4v.is_speech C4f).1 = true) ∧
    (C4v.speaking = false → (C4v.is_speech C4f).1 = false) :=
  C4_hysteresis C4v C4f rfl rfl rfl rfl rfl
    (by with_unfolding_all decide) (by with_unfolding_all decide)

/-- Processing a frame through is_speech never enters calibration: once the
calibrating flag is false it stays false over any frame sequence. -/
theorem vad_consume_stays_uncalibrated (gs : List Frame) :
    ∀ v : FluxVAD, v.calibrating = false →
      (FluxVAD.consume v gs).calibrating = false := by
  induction gs with
  | nil => intro v h; exact h
  | cons g gs ih =>
    intro v h
    have hstep : ((v.is_speech g).2).calibrating = false := by
      simp only [FluxVAD.is_speech, h, Bool.false_eq_true, if_false]
      cases hsp : v.speaking <;> simp [hsp, h]
    simpa [FluxVAD.consume] using ih _ hstep

/-- While calibrating with calib_done < calib_target, the calibration flag
is cleared by a frame sequence exactly when the sequence is long enough for
calib_done to reach calib_target. -/
theorem vad_consume_calibrating_iff (gs : List Frame) :
    ∀ v : FluxVAD, v.calibrating = true → v.calib_done < v.calib_target →
      ((FluxVAD.consume v gs).calibrating = false ↔
        v.calib_target ≤ v.calib_done + gs.length) := by
  induction gs with
  | nil =>
    intro v h hd
    simp [FluxVAD.consume, h]
    omega
  | cons g gs ih =>
    intro v h hd
    have hs1 : (v.is_speech g).2 =
        { v.feed_calibration g with speaking := false } := by
      simp [FluxVAD.is_speech, h]
    have hdone : ((v.is_speech g).2).calib_done = v.calib_done + 1 := by
      rw [hs1]; simp [FluxVAD.feed_calibration]
    have htgt : ((v.is_speech g).2).calib_target = v.calib_target := by
      rw [hs1]; simp [FluxVAD.feed_calibration]
    have hcal : ((v.is_speech g).2).calibrating =
        (if v.calib_target ≤ v.calib_done + 1 then false else v.calibrating) := by
      rw [hs1]; simp [FluxVAD.feed_calibration]
    have hunfold : FluxVAD.consume v (g :: gs) =
        FluxVAD.consume (v.is_speech g).2 gs := by
      simp [FluxVAD.consume]
    rw [hunfold]
    by_cases hc : v.calib_target ≤ v.calib_done + 1
    · have : ((v.is_speech g).2).calibrating = false := by
        rw [hcal]; simp [hc]
      rw [vad_consume_stays_uncalibrated gs _ this]
      simp only [List.length_cons, eq_self_iff_true, true_iff]
      omega
    · have hcal2 : ((v.is_speech g).2).calibrating = true := by
        rw [hcal]; simp [hc, h]
      have hd2 : ((v.is_speech g).2).calib_done < ((v.is_speech g).2).calib_target := by
        rw [hdone, htgt]; omega
      have := ih _ hcal2 hd2
      rw [hdone, htgt] at this
      rw [this]
      simp only [List.length_cons]
      omega

/-- Claim C5: every frame fed to the VAD while calibrating yields a false
speech decision and leaves the speaking flag false; and starting from
begin_calibration with duration d, the calibration mode is ended by a frame
sequence exactly when its length reaches the target
max(1, (d * 1000) // frame_ms). -/
theorem C5_calibration_suppresses (v : FluxVAD) (f : Frame) (d : ℚ)
    (gs : List Frame) :
    (v.calibrating = true →
      (v.is_speech f).1 = false ∧ (v.is_speech f).2.speaking = false) ∧
    (((v.begin_calibration d none).consume gs).calibrating = false ↔
      max 1 (Int.toNat ⌊d * 1000 / (v.frame_ms : ℚ)⌋) ≤ gs.length) := by
  constructor
  · intro h
    constructor <;> simp [FluxVAD.is_speech, h]
  · have h1 : (v.begin_calibration d none).calibrating = true := rfl
    have h2 : (v.begin_calibration d none).calib_done = 0 := rfl
    have h3 : (v.begin_calibration d none).calib_target =
        max 1 (Int.toNat ⌊d * 1000 / (v.frame_ms : ℚ)⌋) := rfl
    have hd : (v.begin_calibration d none).calib_done <
        (v.begin_calibration d none).calib_target := by
      rw [h2, h3]; exact lt_of_lt_of_le Nat.zero_lt_one (le_max_left _ _)
    have hiff := vad_consume_calibrating_iff gs _ h1 hd
    rw [h2, h3] at hiff
    simpa using hiff

/-- VAD state for the C5 witness: the default VAD in calibration mode with
a target of 2 frames. -/
def C5v : FluxVAD :=
  { defVAD with calibrating := true, calib_target := 2, calib_done := 0 }

/-- Witness for C5_calibration_suppresses at a concrete calibrating VAD, a
loud frame, duration 2 seconds, and a two-frame sequence (the target
max(1, 2000 // 30) = 66 frames is not yet reached, so both sides of the
equivalence are false). -/
theorem C5_calibration_suppresses_witness :
    (C5v.calibrating = true →
      (C5v.is_speech (loudF 0)).1 = false ∧
      (C5v.is_speech (loudF 0)).2.speaking = false) ∧
    (((C5v.begin_calibration 2 none).consume [loudF 1, loudF 2]).calibrating = false ↔
      max 1 (Int.toNat ⌊(2 : ℚ) * 1000 / (C5v.frame_ms : ℚ)⌋) ≤
        ([loudF 1, loudF 2] : List Frame).length) :=
  C5_calibration_suppresses C5v (loudF 0) 2 [loudF 1, loudF 2]

/-- Claim C6: a finalized segment whose computed duration falls below
min_segment_ms, or whose overall dBFS level falls below min_rms_dbfs, never
reaches the transcription collaborator. -/
theorem C6_segment_filters (debug_vad : Bool) (N fs min_segment_ms : ℕ)
    (min_rms_dbfs : ℚ) (size : ℕ) (seg_db : ℚ)
    (h : segMsOf fs size < min_segment_ms ∨ seg_db < min_rms_dbfs) :
    (segmentPipeline debug_vad N fs min_segment_ms min_rms_dbfs size seg_db).1 =
      false := by
  unfold segmentPipeline transcribeAsyncRun doTranscribeFilters
  by_cases hg : size < N * 3
  · simp [hg]
  · rcases h with h | h
    · simp [hg, h]
    · by_cases h2 : segMsOf fs size < min_segment_ms
      · simp [hg, h2]
      · simp [hg, h2, h]

/-- Witness for C6_segment_filters at the two concrete instances of the
claim: a 300 ms segment (4800 samples at 16 kHz) against
min_segment_ms = 600, and a 700 ms segment (11200 samples) at -50 dBFS
against min_rms_dbfs = -45. -/
theorem C6_segment_filters_witness :
    (segmentPipeline false 480 16000 600 (-45) 4800 (-20)).1 = false ∧
    (segmentPipeline false 480 16000 600 (-45) 11200 (-50)).1 = false :=
  ⟨C6_segment_filters false 480 16000 600 (-45) 4800 (-20)
      (Or.inl (by norm_num [segMsOf])),
   C6_segment_filters false 480 16000 600 (-45) 11200 (-50)
      (Or.inr (by norm_num))⟩

/-- Claim C7: outside calibration, is_speech adapts the noise floor by the
exponential moving average (1 - noise_ema) * noise_db + noise_ema * level
exactly when the VAD is not currently speaking, and leaves it unchanged
when it is speaking. -/
theorem C7_noise_adaptation (v : FluxVAD) (f : Frame)
    (h : v.calibrating = false) :
    (v.speaking = false →
      (v.is_speech f).2.noise_db =
        (1 - v.noise_ema) * v.noise_db + v.noise_ema * f.db) ∧
    (v.speaking = true → (v.is_speech f).2.noise_db = v.noise_db) := by
  constructor <;> intro hsp <;> simp [FluxVAD.is_speech, h, hsp]

/-- Witness for C7_noise_adaptation at the default VAD (not speaking) and a
loud frame. -/
theorem C7_noise_adaptation_witness :
    (defVAD.speaking = false →
      (defVAD.is_speech (loudF 0)).2.noise_db =
        (1 - defVAD.noise_ema) * defVAD.noise_db + defVAD.noise_ema * (loudF 0).db) ∧
    (defVAD.speaking = true →
      (defVAD.is_speech (loudF 0)).2.noise_db = defVAD.noise_db) :=
  C7_noise_adaptation defVAD (loudF 0) rfl

/-- Claim C8: calling enhance on a NoiseSuppressor that has learned no
noise baseline (noise_mag is None, as after construction) returns the input
unchanged, for every input and every choice of the FFT pair. -/
theorem C8_enhance_noop (rf : List ℚ → List ℚ × List ℚ)
    (irf : List ℚ → List ℚ → ℕ → List ℚ) (ns : NoiseSuppressor)
    (xs : List ℚ) (h : ns.noise_mag = none) :
    ns.enhance rf irf xs = xs := by
  unfold NoiseSuppressor.enhance
  rw [h]

/-- FFT stand-in for the C8 witness. -/
def rfW (s : List ℚ) : List ℚ × List ℚ := (s, s)

/-- Inverse-FFT stand-in for the C8 witness: a concrete function returning
n samples. -/
def irfW (_m _p : List ℚ) (n : ℕ) : List ℚ := List.replicate n 0

/-- Witness for C8_enhance_noop on a fresh NoiseSuppressor and a concrete
three-sample input. -/
theorem C8_enhance_noop_witness :
    emptyNS.enhance rfW irfW [1, 1/2, -3] = [1, 1/2, -3] :=
  C8_enhance_noop rfW irfW emptyNS [1, 1/2, -3] rfl

/-- Adding a frame into an accumulator never changes its length. -/
theorem addInto_length (y : List ℚ) (s : ℕ) (f : List ℚ) :
    (addInto y s f).length = y.length := by
  simp [addInto]

/-- Overlap-add never changes the length of the accumulator. -/
theorem olaAdd_length (hop : ℕ) (frames : List (List ℚ)) (y0 : List ℚ) :
    (olaAdd hop frames y0).length = y0.length := by
  unfold olaAdd
  generalize frames.enum = ps
  induction ps generalizing y0 with
  | nil => rfl
  | cons p ps ih => rw [List.foldl_cons, ih, addInto_length]

/-- The tail padding or truncation step of enhance always produces exactly
n samples. -/
theorem pad_or_trunc_length (yn : List ℚ) (n : ℕ) :
    (if yn.length < n then yn ++ List.replicate (n - yn.length) (0 : ℚ)
     else yn.take n).length = n := by
  split <;> simp <;> omega

/-- Claim C9: enhance always returns exactly as many samples as its input:
inputs shorter than one analysis window (and inputs seen before any
baseline) are returned unchanged, and otherwise the overlap-add
reconstruction is truncated to the input length or zero-padded at the
tail. -/
theorem C9_enhance_length (rf : List ℚ → List ℚ × List ℚ)
    (irf : List ℚ → List ℚ → ℕ → List ℚ) (ns : NoiseSuppressor)
    (xs : List ℚ) :
    (ns.enhance rf irf xs).length = xs.length := by
  unfold NoiseSuppressor.enhance
  cases hm : ns.noise_mag with
  | none => rfl
  | some nm =>
    by_cases hN : xs.length < ns.N
    · simp [hN]
    · simp only [hN, if_false]
      apply pad_or_trunc_length

/-- Claim C10: every segment of fewer than N * 3 samples is discarded by
the dispatch gate before any worker is spawned, with no log output,
regardless of the min_segment_ms and min_rms_dbfs settings (which are never
consulted for it). -/
theorem C10_short_segment_skipped (debug_vad : Bool)
    (N fs min_segment_ms : ℕ) (min_rms_dbfs : ℚ) (size : ℕ) (seg_db : ℚ)
    (h : size < N * 3) :
    segmentPipeline debug_vad N fs min_segment_ms min_rms_dbfs size seg_db =
      (false, []) := by
  simp [segmentPipeline, transcribeAsyncRun, h]

/-- Witness for C10_short_segment_skipped: 1000 samples at N = 480 (below
the 1440-sample gate), with filter settings (min_segment_ms = 0,
min_rms_dbfs = -1000) that would not reject the segment. -/
theorem C10_short_segment_skipped_witness :
    segmentPipeline false 480 16000 0 (-1000) 1000 0 = (false, []) :=
  C10_short_segment_skipped false 480 16000 0 (-1000) 1000 0 (by norm_num)
